import Mathlib

/-!
Verification of the Mallard image-gateway core: the create/delete/read
orchestration in `mallard/gateway/routers/images/endpoints.py` and the
query-translation engine in
`mallard/gateway/backends/metadata/sql/sql_image_metadata_store.py`.

The embedding is shallow: stores become association lists keyed by
`ObjectRef`, SQLAlchemy `Select` objects become Boolean predicates over ORM
rows, concurrent sub-operations become explicit outcome flags, and the
exception flow of each endpoint becomes an `Except`-valued function over the
store state.
-/

namespace Mallard

/-- The `ObjectRef` from `mallard/gateway/backends/objects/models.py`:
a (bucket, name) pair naming one blob in the object store. -/
structure ObjectRef where
  bucket : String
  name : String
deriving DecidableEq, Repr

/-- The `ImageFormat` enum, as listed in `_IMAGE_FORMAT_TO_MIME_TYPES` in
`endpoints.py`: GIF, TIFF, JPEG, BMP, PNG. -/
inductive ImageFormat where
  | gif
  | tiff
  | jpeg
  | bmp
  | png
deriving DecidableEq, Repr

/-- Modelled from the spec: `PlatformType`, the platform-type enum of
`ImageMetadata` (the schemas module is not among the provided sources). -/
inductive PlatformType where
  | ground
  | aerial_manned
  | aerial_uav
deriving DecidableEq, Repr

/-- Modelled from the spec: `GeoPoint`, a latitude/longitude pair in decimal
degrees (schemas module not among the provided sources). Degrees are modelled
over `Int`; only their ordering matters to the claims. -/
structure GeoPoint where
  latitude_deg : Int
  longitude_deg : Int
deriving DecidableEq, Repr

/-- Modelled from the spec: `UavImageMetadata`, the structured attributes of
one image (schemas module not among the provided sources). Field names follow
the columns used by `__update_image_query` and `__pydantic_to_orm_image` in
`sql_image_metadata_store.py`. Dates and the float-valued fields are modelled
over `Int`; only their ordering matters to the claims. -/
structure UavImageMetadata where
  platform_type : PlatformType
  name : String
  notes : String
  camera : String
  session_number : Int
  sequence_number : Int
  capture_date : Int
  location_description : String
  location : GeoPoint
  altitude_meters : Int
  gsd_cm_px : Int
  format : ImageFormat
deriving DecidableEq, Repr

/-- The ORM `Image` row from `models.py` as used by
`sql_image_metadata_store.py`: one column per metadata field plus the
(bucket, key) primary key and split `location_lat` / `location_lon` columns. -/
structure Image where
  bucket : String
  key : String
  platform_type : PlatformType
  name : String
  notes : String
  camera : String
  session_number : Int
  sequence_number : Int
  capture_date : Int
  location_description : String
  location_lat : Int
  location_lon : Int
  altitude_meters : Int
  gsd_cm_px : Int
  format : ImageFormat
deriving DecidableEq, Repr

/-- Modelled from the spec: `ImageQuery.Range`, an inclusive numeric/date
range filter (schemas module not among the provided sources). -/
structure Range where
  min_value : Int
  max_value : Int
deriving DecidableEq, Repr

/-- Modelled from the spec: `ImageQuery.BoundingBox`, a south-west /
north-east pair of geographic points (schemas module not among the provided
sources). -/
structure BoundingBox where
  south_west : GeoPoint
  north_east : GeoPoint
deriving DecidableEq, Repr

/-- Modelled from the spec: `ImageQuery`, a sparse filter specification.
Every field is optional; the shapes (exact enum value, text, `Range`,
`BoundingBox`) follow the dispatch targets of `__update_query` and the field
list of `__update_image_query` in `sql_image_metadata_store.py`. -/
structure ImageQuery where
  platform_type : Option PlatformType := none
  name : Option String := none
  notes : Option String := none
  camera : Option String := none
  session_numbers : Option Range := none
  sequence_numbers : Option Range := none
  capture_dates : Option Range := none
  location_description : Option String := none
  altitude_meters : Option Range := none
  gsd_cm_px : Option Range := none
  bounding_box : Option BoundingBox := none
deriving DecidableEq, Repr

/-- The default `ImageQuery()` used by `query_images`: every filter absent. -/
def emptyImageQuery : ImageQuery := {}

/-- SQL `LIKE` pattern matching over character lists: `%` matches any
(possibly empty) substring, `_` matches exactly one character, any other
pattern character matches itself. This is the semantics of
`column.like(...)` applied by `__update_query` for string filter values. -/
def likeMatch : List Char → List Char → Bool
  | [], s => s.isEmpty
  | '%' :: ps, s => (s.tails).any (fun t => likeMatch ps t)
  | '_' :: _, [] => false
  | '_' :: ps, _ :: rest => likeMatch ps rest
  | _ :: _, [] => false
  | p :: ps, c :: rest => p == c && likeMatch ps rest

/-- The `LIKE` pattern built by the string registration of `__update_query`:
`f"%{value}%"`, i.e. the filter value interpolated (unescaped) between two
`%` wildcards. -/
def likePattern (value : String) : List Char :=
  '%' :: value.data ++ ['%']

/-- Literal (metacharacter-free) substring test: does `needle` occur
contiguously inside `haystack`? Spec-side notion used to compare with the
`LIKE`-based filter. -/
def is_substring (needle haystack : List Char) : Bool :=
  haystack.tails.any (fun t => needle.isPrefixOf t)

/-! ## Query translation (`SqlImageMetadataStore.__update_query` and friends)

A SQLAlchemy `Select` with accumulated `where` clauses is embedded as a
Boolean predicate over ORM `Image` rows; each `query.where(cond)` becomes
conjunction with `cond`. The `singledispatchmethod` registrations of
`__update_query` become one Lean function per dispatch type, and the
per-field `Optional` shape of `ImageQuery` selects between the `None`
registration and the value registration. -/

/-- The `__update_query` registration for `type(None)`: the filter value is
absent, so no predicate is added. -/
def update_query_none (query : Image → Bool) : Image → Bool :=
  query

/-- The `__update_query` registration for `Enum`: `query.where(column == value)`. -/
def update_query_enum (value : PlatformType) (query : Image → Bool)
    (column : Image → PlatformType) : Image → Bool :=
  fun img => query img && (column img == value)

/-- The `__update_query` registration for `str`:
`query.where(column.like(f"%\x7bvalue\x7d%"))`. -/
def update_query_str (value : String) (query : Image → Bool)
    (column : Image → String) : Image → Bool :=
  fun img => query img && likeMatch (likePattern value) (column img).data

/-- The `__update_query` registration for `ImageQuery.Range`:
`query.where(column >= value.min_value, column <= value.max_value)`. -/
def update_query_range (value : Range) (query : Image → Bool)
    (column : Image → Int) : Image → Bool :=
  fun img =>
    query img && decide (column img ≥ value.min_value)
      && decide (column img ≤ value.max_value)

/-- Dispatch of `__update_query` on an `Optional` enum-valued filter field. -/
def update_query_opt_enum (value : Option PlatformType) (query : Image → Bool)
    (column : Image → PlatformType) : Image → Bool :=
  match value with
  | none => update_query_none query
  | some v => update_query_enum v query column

/-- Dispatch of `__update_query` on an `Optional` text filter field. -/
def update_query_opt_str (value : Option String) (query : Image → Bool)
    (column : Image → String) : Image → Bool :=
  match value with
  | none => update_query_none query
  | some v => update_query_str v query column

/-- Dispatch of `__update_query` on an `Optional` `Range` filter field. -/
def update_query_opt_range (value : Option Range) (query : Image → Bool)
    (column : Image → Int) : Image → Bool :=
  match value with
  | none => update_query_none query
  | some v => update_query_range v query column

/-- The `SqlImageMetadataStore.__update_location_query`: no bounding box means no
change; otherwise four inclusive `where` clauses on the latitude and
longitude columns. -/
def update_location_query (value : Option BoundingBox) (query : Image → Bool)
    (lat_column lon_column : Image → Int) : Image → Bool :=
  match value with
  | none => query
  | some bb =>
    fun img =>
      query img
        && decide (lat_column img ≤ bb.north_east.latitude_deg)
        && decide (lat_column img ≥ bb.south_west.latitude_deg)
        && decide (lon_column img ≤ bb.north_east.longitude_deg)
        && decide (lon_column img ≥ bb.south_west.longitude_deg)

/-- The `SqlImageMetadataStore.__update_image_query`: applies `__update_query`
for each filter field in the listed order, then
`__update_location_query` for the bounding box. -/
def update_image_query (value : ImageQuery) (query : Image → Bool) :
    Image → Bool :=
  let q1 := update_query_opt_enum value.platform_type query
    (fun i => i.platform_type)
  let q2 := update_query_opt_str value.name q1 (fun i => i.name)
  let q3 := update_query_opt_str value.notes q2 (fun i => i.notes)
  let q4 := update_query_opt_str value.camera q3 (fun i => i.camera)
  let q5 := update_query_opt_range value.session_numbers q4
    (fun i => i.session_number)
  let q6 := update_query_opt_range value.sequence_numbers q5
    (fun i => i.sequence_number)
  let q7 := update_query_opt_range value.capture_dates q6
    (fun i => i.capture_date)
  let q8 := update_query_opt_str value.location_description q7
    (fun i => i.location_description)
  let q9 := update_query_opt_range value.altitude_meters q8
    (fun i => i.altitude_meters)
  let q10 := update_query_opt_range value.gsd_cm_px q9 (fun i => i.gsd_cm_px)
  update_location_query value.bounding_box q10
    (fun i => i.location_lat) (fun i => i.location_lon)

/-! ## Orderings and query execution -/

/-- The `Ordering.Field` enum: the fixed whitelist of sortable fields, from
`SqlImageMetadataStore._ORDER_TO_COLUMN`. -/
inductive OrderField where
  | name
  | session_num
  | sequence_num
  | capture_date
  | camera
deriving DecidableEq, Repr

/-- The `Ordering` schema: a sort field plus direction. -/
structure Ordering where
  field : OrderField
  ascending : Bool
deriving DecidableEq, Repr

/-- A column value as used for sorting: the whitelisted columns are either
text or numeric/date (modelled over `Int`). -/
inductive ColumnValue where
  | text (s : String)
  | num (n : Int)
deriving DecidableEq, Repr

/-- The `_ORDER_TO_COLUMN`: maps each whitelisted ordering field to the
corresponding ORM column. -/
def order_to_column (f : OrderField) (img : Image) : ColumnValue :=
  match f with
  | OrderField.name => ColumnValue.text img.name
  | OrderField.session_num => ColumnValue.num img.session_number
  | OrderField.sequence_num => ColumnValue.num img.sequence_number
  | OrderField.capture_date => ColumnValue.num img.capture_date
  | OrderField.camera => ColumnValue.text img.camera

/-- Strict comparison between column values (SQL column ordering). -/
def ColumnValue.ltb : ColumnValue → ColumnValue → Bool
  | ColumnValue.text a, ColumnValue.text b => decide (a < b)
  | ColumnValue.num a, ColumnValue.num b => decide (a < b)
  | _, _ => false

/-- Lexicographic "comes no later than" relation induced by a list of
`Ordering` clauses, primary key first, as produced by the successive
`order_by` calls of `__update_query_order`. -/
def ordering_le (ords : List Ordering) (a b : Image) : Bool :=
  match ords with
  | [] => true
  | o :: rest =>
    let va := order_to_column o.field a
    let vb := order_to_column o.field b
    let lt := if o.ascending then ColumnValue.ltb va vb
      else ColumnValue.ltb vb va
    if lt then true
    else if va == vb then ordering_le rest a b
    else false

/-- Insert into a list sorted by `le`, keeping it sorted. -/
def insertSorted (le : Image → Image → Bool) (x : Image) :
    List Image → List Image
  | [] => [x]
  | y :: ys => if le x y then x :: y :: ys else y :: insertSorted le x ys

/-- Sort the result rows by the accumulated `order_by` clauses. -/
def sortByOrderings (ords : List Ordering) (rows : List Image) : List Image :=
  rows.foldr (insertSorted (ordering_le ords)) []

/-- The `SqlImageMetadataStore.query`: build the filtered selection with
`__update_image_query`, apply the orderings, then
`.offset(skip_first).limit(max_num_results)`, and map each resulting row to
its `ObjectRef`. The database table is embedded as a list of ORM rows. -/
def sql_store_query (table : List Image) (query : ImageQuery)
    (orderings : List Ordering) (skip_first max_num_results : Nat) :
    List ObjectRef :=
  let filtered := table.filter (update_image_query query (fun _ => true))
  let sorted := sortByOrderings orderings filtered
  ((sorted.drop skip_first).take max_num_results).map
    (fun r => ObjectRef.mk r.bucket r.key)

/-- The `QueryResponse` from `routers/images/models.py` as used by
`query_images`. -/
structure QueryResponse where
  image_ids : List ObjectRef
  page_num : Nat
  is_last_page : Bool
deriving DecidableEq, Repr

/-- The `query_images` from `endpoints.py`: computes
`skip_first = (page_num - 1) * results_per_page`, runs the metadata-store
query, and deems the page last exactly when fewer than `results_per_page`
results came back. -/
def query_images (table : List Image) (query : ImageQuery)
    (orderings : List Ordering) (results_per_page page_num : Nat) :
    QueryResponse :=
  let skip_first := (page_num - 1) * results_per_page
  let image_ids := sql_store_query table query orderings skip_first
    results_per_page
  { image_ids := image_ids
    page_num := page_num
    is_last_page := decide (image_ids.length < results_per_page) }

/-! ## SQL metadata store: add / get / delete (`sql_image_metadata_store.py`)

The database table is an association list of ORM `Image` rows; a session is
simply the current table. `select(...).where(bucket, key)` with `.one()`
becomes a filter followed by a match on the number of results. -/

/-- The `SqlImageMetadataStore.__pydantic_to_orm_image`: converts a Pydantic
metadata model plus its `ObjectRef` to an ORM row, splitting the location
into `location_lat` / `location_lon` columns. -/
def pydantic_to_orm_image (object_id : ObjectRef)
    (metadata : UavImageMetadata) : Image :=
  { bucket := object_id.bucket
    key := object_id.name
    platform_type := metadata.platform_type
    name := metadata.name
    notes := metadata.notes
    camera := metadata.camera
    session_number := metadata.session_number
    sequence_number := metadata.sequence_number
    capture_date := metadata.capture_date
    location_description := metadata.location_description
    location_lat := metadata.location.latitude_deg
    location_lon := metadata.location.longitude_deg
    altitude_meters := metadata.altitude_meters
    gsd_cm_px := metadata.gsd_cm_px
    format := metadata.format }

/-- The `SqlImageMetadataStore.__orm_image_to_pydantic`: converts an ORM row back
to a Pydantic model, reassembling the `GeoPoint` location from the split
latitude and longitude columns. -/
def orm_image_to_pydantic (image : Image) : UavImageMetadata :=
  { platform_type := image.platform_type
    name := image.name
    notes := image.notes
    camera := image.camera
    session_number := image.session_number
    sequence_number := image.sequence_number
    capture_date := image.capture_date
    location_description := image.location_description
    location := { latitude_deg := image.location_lat
                  longitude_deg := image.location_lon }
    altitude_meters := image.altitude_meters
    gsd_cm_px := image.gsd_cm_px
    format := image.format }

/-- Database-level errors surfaced by the SQL store. `keyErr` is the
`KeyError` raised by `__get_by_id` on `NoResultFound`; `multipleResults` is
`.one()` finding more than one row. -/
inductive DbError where
  | keyErr
  | multipleResults
deriving DecidableEq, Repr

/-- The `SqlImageMetadataStore.__get_by_id`: select the rows whose (bucket, key)
equal the `ObjectRef`; `.one()` demands exactly one. -/
def get_by_id (table : List Image) (object_id : ObjectRef) :
    Except DbError Image :=
  match table.filter
      (fun i => i.bucket == object_id.bucket && i.key == object_id.name) with
  | [] => Except.error DbError.keyErr
  | [img] => Except.ok img
  | _ => Except.error DbError.multipleResults

/-- The `SqlImageMetadataStore.add`: converts the metadata to an ORM row and adds
it to the session's table. -/
def sql_store_add (table : List Image) (object_id : ObjectRef)
    (metadata : UavImageMetadata) : List Image :=
  pydantic_to_orm_image object_id metadata :: table

/-- The `SqlImageMetadataStore.get`: fetch by id, convert to Pydantic. -/
def sql_store_get (table : List Image) (object_id : ObjectRef) :
    Except DbError UavImageMetadata :=
  (get_by_id table object_id).map orm_image_to_pydantic

/-! ## Endpoint-level store state and the create/delete/read orchestration
(`endpoints.py`)

The object store and the metadata store are association lists keyed by
`ObjectRef`. Blob contents are byte lists. Each concurrent sub-operation of
an endpoint is given an explicit success flag (a backend failure is injected
by setting the flag to `false`); all launched tasks run their effects before
the `gather` fan-in resolves, matching `asyncio.create_task` semantics. -/

/-- Raw blob bytes. -/
abbrev Bytes : Type := List Nat

/-- Look up a key in an association list keyed by `ObjectRef`. -/
def lookupRef {α : Type} : List (ObjectRef × α) → ObjectRef → Option α
  | [], _ => none
  | p :: rest, id => if p.1 = id then some p.2 else lookupRef rest id

/-- Remove a key from an association list keyed by `ObjectRef`. -/
def removeRef {α : Type} : List (ObjectRef × α) → ObjectRef →
    List (ObjectRef × α)
  | [], _ => []
  | p :: rest, id =>
    if p.1 = id then removeRef rest id else p :: removeRef rest id

/-- The combined backend state seen by the endpoints: the object store's
blobs and the metadata store's records, both keyed by `ObjectRef`. -/
structure StoreState where
  objects : List (ObjectRef × Bytes)
  metadata : List (ObjectRef × UavImageMetadata)
deriving DecidableEq, Repr

/-- The `_thumbnail_id` from `endpoints.py`: same bucket, name with the fixed
suffix `".thumbnail"` appended. -/
def thumbnail_id (object_id : ObjectRef) : ObjectRef :=
  { bucket := object_id.bucket, name := object_id.name ++ ".thumbnail" }

/-- The `ObjectStore.delete_object` / `MetadataStore.delete` behaviour on one
association list: raises `KeyError` when the key is absent, otherwise
removes it. -/
def store_delete {α : Type} (entries : List (ObjectRef × α))
    (id : ObjectRef) : Except DbError (List (ObjectRef × α)) :=
  match lookupRef entries id with
  | none => Except.error DbError.keyErr
  | some _ => Except.ok (removeRef entries id)

/-- Errors propagated out of `create_uav_image`: the two backend operation
errors caught by the handler, and a `KeyError` escaping a compensation
delete. -/
inductive CreateError where
  | metadataOp
  | objectOp
  | keyErr
deriving DecidableEq, Repr

/-- The `create_uav_image` from `endpoints.py`. The three concurrent
sub-operations (store the object, add the metadata, store the thumbnail)
each get an outcome flag; a `false` flag means that operation raised its
backend error (`ObjectOperationError` for the two object writes,
`MetadataOperationError` for the metadata add) and wrote nothing. When both
a metadata error and an object error occurred, `metadata_error_first`
records which exception the `gather` fan-in surfaced first.
On `MetadataOperationError` the handler deletes the main object then the
thumbnail object and re-raises; on `ObjectOperationError` it deletes the
metadata record and re-raises; a `KeyError` raised by a compensation delete
escapes instead of the original error. -/
def create_uav_image (st : StoreState) (object_id : ObjectRef)
    (metadata : UavImageMetadata) (image_bytes thumbnail_bytes : Bytes)
    (object_ok metadata_ok thumbnail_ok : Bool)
    (metadata_error_first : Bool) : StoreState × Except CreateError ObjectRef :=
  let thumbnail_object_id := thumbnail_id object_id
  let st1 : StoreState :=
    { objects :=
        (if object_ok then [(object_id, image_bytes)] else [])
          ++ (if thumbnail_ok then [(thumbnail_object_id, thumbnail_bytes)]
              else [])
          ++ st.objects
      metadata :=
        (if metadata_ok then [(object_id, metadata)] else []) ++ st.metadata }
  if object_ok && metadata_ok && thumbnail_ok then
    (st1, Except.ok object_id)
  else if !metadata_ok && (metadata_error_first || (object_ok && thumbnail_ok))
  then
    match store_delete st1.objects object_id with
    | Except.error _ => (st1, Except.error CreateError.keyErr)
    | Except.ok objects2 =>
      match store_delete objects2 thumbnail_object_id with
      | Except.error _ =>
        ({ st1 with objects := objects2 }, Except.error CreateError.keyErr)
      | Except.ok objects3 =>
        ({ st1 with objects := objects3 },
          Except.error CreateError.metadataOp)
  else
    match store_delete st1.metadata object_id with
    | Except.error _ => (st1, Except.error CreateError.keyErr)
    | Except.ok metadata2 =>
      ({ st1 with metadata := metadata2 }, Except.error CreateError.objectOp)

/-- The not-found condition an endpoint maps to HTTP 404. -/
inductive HttpError where
  | notFound
deriving DecidableEq, Repr

/-- The `delete_image` from `endpoints.py`: the object-store delete and the
metadata delete are launched concurrently, so each removes its entry when
present regardless of the other; if either raised `KeyError` the whole call
fails with 404 not-found. -/
def delete_image (st : StoreState) (object_id : ObjectRef) :
    StoreState × Except HttpError Unit :=
  let object_found := (lookupRef st.objects object_id).isSome
  let metadata_found := (lookupRef st.metadata object_id).isSome
  let st1 : StoreState :=
    { objects := removeRef st.objects object_id
      metadata := removeRef st.metadata object_id }
  if object_found && metadata_found then (st1, Except.ok ())
  else (st1, Except.error HttpError.notFound)

/-- The `get_image` from `endpoints.py`: fetch the blob stream and the metadata
concurrently; if either raised `KeyError`, cancel the outstanding sibling
and fail 404 as a unit, returning nothing. -/
def get_image (st : StoreState) (object_id : ObjectRef) :
    Except HttpError (Bytes × UavImageMetadata) :=
  match lookupRef st.objects object_id, lookupRef st.metadata object_id with
  | some stream, some metadata => Except.ok (stream, metadata)
  | _, _ => Except.error HttpError.notFound

/-! ## Helper lemmas -/

@[simp]
theorem lookupRef_nil {α : Type} (id : ObjectRef) :
    lookupRef ([] : List (ObjectRef × α)) id = none :=
  rfl

@[simp]
theorem lookupRef_cons {α : Type} (p : ObjectRef × α)
    (rest : List (ObjectRef × α)) (id : ObjectRef) :
    lookupRef (p :: rest) id =
      if p.1 = id then some p.2 else lookupRef rest id :=
  rfl

@[simp]
theorem removeRef_nil {α : Type} (id : ObjectRef) :
    removeRef ([] : List (ObjectRef × α)) id = [] :=
  rfl

@[simp]
theorem removeRef_cons {α : Type} (p : ObjectRef × α)
    (rest : List (ObjectRef × α)) (id : ObjectRef) :
    removeRef (p :: rest) id =
      if p.1 = id then removeRef rest id else p :: removeRef rest id :=
  rfl

@[simp]
theorem lookupRef_removeRef_self {α : Type} (entries : List (ObjectRef × α))
    (id : ObjectRef) : lookupRef (removeRef entries id) id = none := by
  induction entries with
  | nil => rfl
  | cons p rest ih =>
    by_cases h : p.1 = id <;> simp [h, ih]

theorem lookupRef_removeRef_ne {α : Type} (entries : List (ObjectRef × α))
    (k id : ObjectRef) (h : k ≠ id) :
    lookupRef (removeRef entries k) id = lookupRef entries id := by
  have h' : id ≠ k := Ne.symm h
  induction entries with
  | nil => rfl
  | cons p rest ih =>
    by_cases hp : p.1 = k
    · have hpid : ¬p.1 = id := by
        rw [hp]
        exact h
      simp [hp, hpid, h, ih]
    · by_cases hq : p.1 = id <;> simp [hp, hq, h, h', ih]

theorem thumbnail_id_ne (id : ObjectRef) : thumbnail_id id ≠ id := by
  intro h
  have hname := congrArg ObjectRef.name h
  simp only [thumbnail_id] at hname
  have hlen := congrArg String.length hname
  rw [String.length_append] at hlen
  have hsuffix : (".thumbnail" : String).length = 10 := rfl
  rw [hsuffix] at hlen
  omega

/-- Sample values used by concrete counterexamples and witnesses. -/
def sampleMetadata : UavImageMetadata :=
  { platform_type := PlatformType.aerial_uav
    name := "img"
    notes := "field notes"
    camera := "cam"
    session_number := 1
    sequence_number := 2
    capture_date := 3
    location_description := "field"
    location := { latitude_deg := 10, longitude_deg := 20 }
    altitude_meters := 5
    gsd_cm_px := 6
    format := ImageFormat.jpeg }

/-- A sample object reference. -/
def sampleRef : ObjectRef := { bucket := "images", name := "abc123" }

/-- The empty backend state. -/
def emptyState : StoreState := { objects := [], metadata := [] }

/-! ## Claim theorems -/

theorem orm_roundtrip (object_id : ObjectRef) (metadata : UavImageMetadata) :
    orm_image_to_pydantic (pydantic_to_orm_image object_id metadata) =
      metadata :=
  rfl

/-- C9: round trip at the metadata store boundary. For every table, every
`ObjectRef` not already present in it, and every UAV image metadata record
`m`, `get` after `add(object_id, m)` returns a record equal to `m`, with the
geographic location reassembled from the split latitude and longitude
columns. -/
theorem sql_store_add_get_roundtrip (table : List Image)
    (object_id : ObjectRef) (metadata : UavImageMetadata)
    (fresh : ∀ img ∈ table,
      ¬(img.bucket = object_id.bucket ∧ img.key = object_id.name)) :
    sql_store_get (sql_store_add table object_id metadata) object_id =
      Except.ok metadata := by
  have hnil : table.filter
      (fun i => i.bucket == object_id.bucket && i.key == object_id.name)
      = [] := by
    rw [List.filter_eq_nil_iff]
    intro img himg
    have := fresh img himg
    simp only [Bool.and_eq_true, beq_iff_eq]
    intro hcontra
    exact this hcontra
  simp [sql_store_get, sql_store_add, get_by_id, pydantic_to_orm_image,
    List.filter_cons, hnil]
  rfl

/-- Witness for C9 at a concrete input: the empty table is fresh for the
sample reference, and the round trip returns the sample metadata. -/
theorem sql_store_add_get_roundtrip_witness :
    sql_store_get (sql_store_add [] sampleRef sampleMetadata) sampleRef =
      Except.ok sampleMetadata :=
  sql_store_add_get_roundtrip [] sampleRef sampleMetadata (by simp)

/-- C10: the text-field substring filter is not a literal substring match.
There is a filter value containing `%` or `_` and an image row whose `name`
column does not contain that value as a literal substring, yet the row
passes the translated query filter, because the value is interpolated
unescaped between two `LIKE` wildcards. -/
theorem like_filter_not_literal_substring :
    ∃ (v : String) (img : Image),
      ('%' ∈ v.data ∨ '_' ∈ v.data)
        ∧ update_image_query { emptyImageQuery with name := some v }
            (fun _ => true) img = true
        ∧ is_substring v.data img.name.data = false := by
  refine ⟨"a%b",
    { bucket := "images"
      key := "k1"
      platform_type := PlatformType.ground
      name := "ab"
      notes := ""
      camera := ""
      session_number := 0
      sequence_number := 0
      capture_date := 0
      location_description := ""
      location_lat := 0
      location_lon := 0
      altitude_meters := 0
      gsd_cm_px := 0
      format := ImageFormat.png }, ?_, ?_, ?_⟩ <;> decide

/-- C6: `delete_image` fails with a not-found condition exactly when either
the object-store delete or the metadata delete reports not-found; there is
no partial-success path — when exactly one side exists, that side is still
deleted while the caller is told the image could not be found; and a second
delete of the same `ObjectRef` after a successful first delete fails
not-found. -/
theorem delete_image_not_found_unit (st : StoreState) (object_id : ObjectRef) :
    ((delete_image st object_id).2 = Except.error HttpError.notFound ↔
      ¬((lookupRef st.objects object_id).isSome = true
        ∧ (lookupRef st.metadata object_id).isSome = true))
  ∧ (lookupRef st.objects object_id = none →
      (lookupRef st.metadata object_id).isSome = true →
      ((delete_image st object_id).2 = Except.error HttpError.notFound
        ∧ lookupRef (delete_image st object_id).1.metadata object_id = none))
  ∧ (lookupRef st.metadata object_id = none →
      (lookupRef st.objects object_id).isSome = true →
      ((delete_image st object_id).2 = Except.error HttpError.notFound
        ∧ lookupRef (delete_image st object_id).1.objects object_id = none))
  ∧ ((delete_image st object_id).2 = Except.ok () →
      (delete_image (delete_image st object_id).1 object_id).2 =
        Except.error HttpError.notFound) := by
  refine ⟨?_, ?_, ?_, ?_⟩
  · simp only [delete_image]
    by_cases ho : (lookupRef st.objects object_id).isSome = true <;>
      by_cases hm : (lookupRef st.metadata object_id).isSome = true <;>
        simp [ho, hm]
  · intro ho hm
    simp [delete_image, ho]
  · intro hm ho
    simp [delete_image, hm]
  · intro hok
    by_cases ho : (lookupRef st.objects object_id).isSome = true
    · by_cases hm : (lookupRef st.metadata object_id).isSome = true
      · simp [delete_image, ho, hm]
      · simp [delete_image, ho, hm] at hok
    · simp [delete_image, ho] at hok

/-- Witness for C6 at a concrete input: a state holding only the metadata
record; the delete reports not-found while still removing the record, and a
successful delete followed by a second delete fails not-found. -/
theorem delete_image_not_found_unit_witness :
    lookupRef (StoreState.mk [] [(sampleRef, sampleMetadata)]).objects
        sampleRef = none
    ∧ ((delete_image (StoreState.mk [] [(sampleRef, sampleMetadata)])
          sampleRef).2 = Except.error HttpError.notFound
      ∧ lookupRef (delete_image (StoreState.mk [] [(sampleRef,
          sampleMetadata)]) sampleRef).1.metadata sampleRef = none) :=
  ⟨rfl,
    (delete_image_not_found_unit
        (StoreState.mk [] [(sampleRef, sampleMetadata)]) sampleRef).2.1
      (by decide) (by decide)⟩

/-- C7: `get_image` succeeds exactly when both the blob and the metadata
record exist; on success it returns precisely that blob and that metadata,
and if either is missing the whole call fails not-found as a unit, so the
caller never receives a stream without metadata or metadata without a
stream. -/
theorem get_image_all_or_nothing (st : StoreState) (object_id : ObjectRef) :
    ((∃ stream metadata,
        get_image st object_id = Except.ok (stream, metadata)) ↔
      ((lookupRef st.objects object_id).isSome = true
        ∧ (lookupRef st.metadata object_id).isSome = true))
  ∧ (∀ stream metadata,
      get_image st object_id = Except.ok (stream, metadata) →
        (lookupRef st.objects object_id = some stream
          ∧ lookupRef st.metadata object_id = some metadata))
  ∧ ((lookupRef st.objects object_id = none
        ∨ lookupRef st.metadata object_id = none) →
      get_image st object_id = Except.error HttpError.notFound) := by
  rcases ho : lookupRef st.objects object_id with _ | stream <;>
    rcases hm : lookupRef st.metadata object_id with _ | metadata <;>
      simp [get_image, ho, hm]

/-- Witness for C7 at a concrete input: with only the blob stored, the read
fails not-found as a unit. -/
theorem get_image_all_or_nothing_witness :
    get_image (StoreState.mk [(sampleRef, [7])] []) sampleRef =
      Except.error HttpError.notFound :=
  (get_image_all_or_nothing (StoreState.mk [(sampleRef, [7])] [])
      sampleRef).2.2 (Or.inr rfl)

/-- C8 counterexample: starting from the empty state, a successful create
followed by a successful delete of the parent image leaves the thumbnail
object still present — the thumbnail is not deleted in lockstep. -/
theorem thumbnail_survives_delete_cex :
    (create_uav_image emptyState sampleRef sampleMetadata [1] [2]
        true true true true).2 = Except.ok sampleRef
    ∧ (delete_image (create_uav_image emptyState sampleRef sampleMetadata
        [1] [2] true true true true).1 sampleRef).2 = Except.ok ()
    ∧ lookupRef (delete_image (create_uav_image emptyState sampleRef
        sampleMetadata [1] [2] true true true true).1 sampleRef).1.objects
        (thumbnail_id sampleRef) = some [2] := by
  refine ⟨?_, ?_, ?_⟩ <;> rfl

/-- C8 (amended): the thumbnail identity is derived deterministically by
appending the fixed suffix `".thumbnail"` to the object's name within the
same bucket, and after a successful create both the main object and the
thumbnail exist; however the delete endpoint does not touch the thumbnail —
after a delete of the parent, the thumbnail entry is exactly what it was
before. -/
theorem thumbnail_identity_amended (st : StoreState) (id : ObjectRef)
    (m : UavImageMetadata) (img th : Bytes) (mf : Bool) :
    thumbnail_id id = ObjectRef.mk id.bucket (id.name ++ ".thumbnail")
  ∧ ((create_uav_image st id m img th true true true mf).2 = Except.ok id
      ∧ lookupRef (create_uav_image st id m img th true true true mf).1.objects
          id = some img
      ∧ lookupRef (create_uav_image st id m img th true true true mf).1.objects
          (thumbnail_id id) = some th)
  ∧ lookupRef (delete_image st id).1.objects (thumbnail_id id) =
      lookupRef st.objects (thumbnail_id id) := by
  have hne : thumbnail_id id ≠ id := thumbnail_id_ne id
  have hne' : id ≠ thumbnail_id id := Ne.symm hne
  refine ⟨rfl, ?_, ?_⟩
  · simp [create_uav_image, hne, hne']
  · have hfst : (delete_image st id).1.objects = removeRef st.objects id := by
      simp only [delete_image]
      split <;> rfl
    rw [hfst]
    exact lookupRef_removeRef_ne st.objects id (thumbnail_id id) hne'

/-- C1: the create orchestrator's compensation protocol. If the metadata add
fails with `MetadataOperationError` (while both object writes succeed), the
orchestrator deletes the main object and the thumbnail object and propagates
the original error, leaving the metadata store untouched. If a main or
thumbnail object-store write fails with `ObjectOperationError` (while the
metadata add succeeds), the orchestrator deletes the metadata record and
propagates the original error. -/
theorem create_rollback (st : StoreState) (id : ObjectRef)
    (m : UavImageMetadata) (img th : Bytes) (mf : Bool) :
    ((create_uav_image st id m img th true false true mf).2 =
        Except.error CreateError.metadataOp
      ∧ lookupRef (create_uav_image st id m img th true false true mf).1.objects
          id = none
      ∧ lookupRef (create_uav_image st id m img th true false true mf).1.objects
          (thumbnail_id id) = none
      ∧ (create_uav_image st id m img th true false true mf).1.metadata =
          st.metadata)
  ∧ (∀ object_ok thumbnail_ok : Bool, (object_ok && thumbnail_ok) = false →
      ((create_uav_image st id m img th object_ok true thumbnail_ok mf).2 =
          Except.error CreateError.objectOp
        ∧ lookupRef (create_uav_image st id m img th object_ok true
            thumbnail_ok mf).1.metadata id = none)) := by
  have hne : thumbnail_id id ≠ id := thumbnail_id_ne id
  have hne' : id ≠ thumbnail_id id := Ne.symm hne
  constructor
  · simp [create_uav_image, store_delete, hne, hne',
      lookupRef_removeRef_ne (removeRef st.objects id) (thumbnail_id id) id
        hne]
  · intro object_ok thumbnail_ok hfail
    cases object_ok <;> cases thumbnail_ok <;>
      simp_all [create_uav_image, store_delete, hne, hne']

/-- Witness for C1 at a concrete input: with a failed main-object write
(thumbnail and metadata succeeded), the orchestrator reports
`ObjectOperationError` and the metadata record is gone. -/
theorem create_rollback_witness :
    ((false && true) = false)
    ∧ ((create_uav_image emptyState sampleRef sampleMetadata [1] [2]
          false true true true).2 = Except.error CreateError.objectOp
      ∧ lookupRef (create_uav_image emptyState sampleRef sampleMetadata
          [1] [2] false true true true).1.metadata sampleRef = none) :=
  ⟨rfl,
    (create_rollback emptyState sampleRef sampleMetadata [1] [2] true).2
      false true rfl⟩

/-- C2 counterexample: a create in which only the thumbnail write fails.
The call fails with the original `ObjectOperationError` (so the single
compensation action — deleting the metadata record — succeeded, as the
absent record confirms), yet the main object is still present in the object
store: a partial artifact remains. -/
theorem create_partial_artifact_cex :
    (create_uav_image emptyState sampleRef sampleMetadata [1] [2]
        true true false true).2 = Except.error CreateError.objectOp
    ∧ lookupRef (create_uav_image emptyState sampleRef sampleMetadata [1] [2]
        true true false true).1.metadata sampleRef = none
    ∧ lookupRef (create_uav_image emptyState sampleRef sampleMetadata [1] [2]
        true true false true).1.objects sampleRef = some [1] := by
  refine ⟨?_, ?_, ?_⟩ <;> rfl

/-- C2 (amended): when the metadata add fails and compensation succeeds, no
partial artifacts remain — the main object, the thumbnail object and the
metadata record are all absent afterwards (given the fresh `ObjectRef` was
not yet in the metadata store). When a main or thumbnail object-store write
fails, the compensation deletes only the metadata record: the record is
absent afterwards, but a sibling object write that succeeded is not rolled
back and its object remains. -/
theorem create_no_partial_artifacts_amended (st : StoreState)
    (id : ObjectRef) (m : UavImageMetadata) (img th : Bytes) (mf : Bool)
    (hfresh : lookupRef st.metadata id = none) :
    (lookupRef (create_uav_image st id m img th true false true mf).1.objects
        id = none
      ∧ lookupRef (create_uav_image st id m img th true false true
          mf).1.objects (thumbnail_id id) = none
      ∧ lookupRef (create_uav_image st id m img th true false true
          mf).1.metadata id = none)
  ∧ (lookupRef (create_uav_image st id m img th true true false mf).1.metadata
        id = none
      ∧ lookupRef (create_uav_image st id m img th true true false mf).1.objects
          id = some img)
  ∧ (lookupRef (create_uav_image st id m img th false true true mf).1.metadata
        id = none
      ∧ lookupRef (create_uav_image st id m img th false true true mf).1.objects
          (thumbnail_id id) = some th) := by
  have hne : thumbnail_id id ≠ id := thumbnail_id_ne id
  have hne' : id ≠ thumbnail_id id := Ne.symm hne
  refine ⟨?_, ?_, ?_⟩ <;>
    simp [create_uav_image, store_delete, hne, hne', hfresh,
      lookupRef_removeRef_ne (removeRef st.objects id) (thumbnail_id id) id
        hne]

/-- Witness for C2 (amended) at a concrete input: from the empty state, a
metadata failure leaves all three artifacts absent after compensation. -/
theorem create_no_partial_artifacts_amended_witness :
    lookupRef emptyState.metadata sampleRef = none
    ∧ lookupRef (create_uav_image emptyState sampleRef sampleMetadata [1] [2]
        true false true true).1.objects sampleRef = none
    ∧ lookupRef (create_uav_image emptyState sampleRef sampleMetadata [1] [2]
        true false true true).1.objects (thumbnail_id sampleRef) = none
    ∧ lookupRef (create_uav_image emptyState sampleRef sampleMetadata [1] [2]
        true false true true).1.metadata sampleRef = none :=
  ⟨rfl,
    (create_no_partial_artifacts_amended emptyState sampleRef sampleMetadata
        [1] [2] true rfl).1.1,
    (create_no_partial_artifacts_amended emptyState sampleRef sampleMetadata
        [1] [2] true rfl).1.2.1,
    (create_no_partial_artifacts_amended emptyState sampleRef sampleMetadata
        [1] [2] true rfl).1.2.2⟩

/-! ## Query-translation characterizations -/

theorem update_query_opt_enum_iff (value : Option PlatformType)
    (query : Image → Bool) (column : Image → PlatformType) (img : Image) :
    update_query_opt_enum value query column img = true ↔
      (query img = true ∧ ∀ v, value = some v → column img = v) := by
  cases value <;>
    simp [update_query_opt_enum, update_query_none, update_query_enum]

theorem update_query_opt_str_iff (value : Option String)
    (query : Image → Bool) (column : Image → String) (img : Image) :
    update_query_opt_str value query column img = true ↔
      (query img = true ∧
        ∀ v, value = some v →
          likeMatch (likePattern v) (column img).data = true) := by
  cases value <;>
    simp [update_query_opt_str, update_query_none, update_query_str]

theorem update_query_opt_range_iff (value : Option Range)
    (query : Image → Bool) (column : Image → Int) (img : Image) :
    update_query_opt_range value query column img = true ↔
      (query img = true ∧
        ∀ v, value = some v →
          (v.min_value ≤ column img ∧ column img ≤ v.max_value)) := by
  cases value <;>
    simp [update_query_opt_range, update_query_none, update_query_range,
      and_assoc]

theorem update_location_query_iff (value : Option BoundingBox)
    (query : Image → Bool) (lat_column lon_column : Image → Int)
    (img : Image) :
    update_location_query value query lat_column lon_column img = true ↔
      (query img = true ∧
        ∀ bb, value = some bb →
          (bb.south_west.latitude_deg ≤ lat_column img
            ∧ lat_column img ≤ bb.north_east.latitude_deg
            ∧ bb.south_west.longitude_deg ≤ lon_column img
            ∧ lon_column img ≤ bb.north_east.longitude_deg)) := by
  cases value with
  | none => simp [update_location_query]
  | some bb =>
    simp [update_location_query, and_assoc]
    tauto

/-- C3: for every `ImageQuery` and every row, the translated filter applies
exactly one of four predicate kinds to each metadata field based on the
shape of its filter value — an absent (`None`) value imposes no constraint,
the enumerated value an equality, a text value a `LIKE` match with
wildcards on both sides, a `Range` value the inclusive double-sided bound
`min ≤ column ≤ max` — and the row passes the whole filter exactly when it
satisfies the conjunction (logical AND, with no OR or NOT composition) of
all active predicates. -/
theorem query_predicate_shapes (q : ImageQuery) (img : Image) :
    update_image_query q (fun _ => true) img = true ↔
      ((∀ v, q.platform_type = some v → img.platform_type = v)
        ∧ (∀ v, q.name = some v →
            likeMatch (likePattern v) img.name.data = true)
        ∧ (∀ v, q.notes = some v →
            likeMatch (likePattern v) img.notes.data = true)
        ∧ (∀ v, q.camera = some v →
            likeMatch (likePattern v) img.camera.data = true)
        ∧ (∀ v, q.session_numbers = some v →
            (v.min_value ≤ img.session_number
              ∧ img.session_number ≤ v.max_value))
        ∧ (∀ v, q.sequence_numbers = some v →
            (v.min_value ≤ img.sequence_number
              ∧ img.sequence_number ≤ v.max_value))
        ∧ (∀ v, q.capture_dates = some v →
            (v.min_value ≤ img.capture_date
              ∧ img.capture_date ≤ v.max_value))
        ∧ (∀ v, q.location_description = some v →
            likeMatch (likePattern v) img.location_description.data = true)
        ∧ (∀ v, q.altitude_meters = some v →
            (v.min_value ≤ img.altitude_meters
              ∧ img.altitude_meters ≤ v.max_value))
        ∧ (∀ v, q.gsd_cm_px = some v →
            (v.min_value ≤ img.gsd_cm_px ∧ img.gsd_cm_px ≤ v.max_value))
        ∧ (∀ bb, q.bounding_box = some bb →
            (bb.south_west.latitude_deg ≤ img.location_lat
              ∧ img.location_lat ≤ bb.north_east.latitude_deg
              ∧ bb.south_west.longitude_deg ≤ img.location_lon
              ∧ img.location_lon ≤ bb.north_east.longitude_deg))) := by
  simp only [update_image_query, update_location_query_iff,
    update_query_opt_range_iff, update_query_opt_str_iff,
    update_query_opt_enum_iff, and_assoc]
  tauto

/-- C4: for every query whose bounding box is `B`, a row passes the full
translated filter exactly when it passes the same query with the bounding
box removed AND its geographic point `P` satisfies the four inclusive
inequalities `B.south_west ≤ P ≤ B.north_east` componentwise on the
latitude and longitude columns — the box filter composes by AND with all
field predicates. -/
theorem bounding_box_filter (q : ImageQuery) (bb : BoundingBox)
    (base : Image → Bool) (img : Image) (h : q.bounding_box = some bb) :
    update_image_query q base img = true ↔
      (update_image_query { q with bounding_box := none } base img = true
        ∧ bb.south_west.latitude_deg ≤ img.location_lat
        ∧ img.location_lat ≤ bb.north_east.latitude_deg
        ∧ bb.south_west.longitude_deg ≤ img.location_lon
        ∧ img.location_lon ≤ bb.north_east.longitude_deg) := by
  simp only [update_image_query, h]
  simp only [update_location_query, and_assoc]
  simp [and_assoc]
  tauto

/-- A sample bounding box used by concrete witnesses. -/
def sampleBox : BoundingBox :=
  { south_west := { latitude_deg := 0, longitude_deg := 0 }
    north_east := { latitude_deg := 30, longitude_deg := 30 } }

/-- A sample ORM row used by concrete witnesses. -/
def sampleImage : Image :=
  { bucket := "images"
    key := "k1"
    platform_type := PlatformType.ground
    name := "a"
    notes := ""
    camera := ""
    session_number := 0
    sequence_number := 0
    capture_date := 0
    location_description := ""
    location_lat := 10
    location_lon := 20
    altitude_meters := 0
    gsd_cm_px := 0
    format := ImageFormat.png }

/-- A sample query consisting of only a bounding-box filter. -/
def boxQuery : ImageQuery := { emptyImageQuery with bounding_box := some sampleBox }

/-- Witness for C4 at a concrete input: a query consisting of only a
bounding box, and a row inside the box. -/
theorem bounding_box_filter_witness :
    boxQuery.bounding_box = some sampleBox
    ∧ (update_image_query boxQuery (fun _ => true) sampleImage = true ↔
        (update_image_query { boxQuery with bounding_box := none }
              (fun _ => true) sampleImage = true
          ∧ sampleBox.south_west.latitude_deg ≤ sampleImage.location_lat
          ∧ sampleImage.location_lat ≤ sampleBox.north_east.latitude_deg
          ∧ sampleBox.south_west.longitude_deg ≤ sampleImage.location_lon
          ∧ sampleImage.location_lon ≤
              sampleBox.north_east.longitude_deg)) :=
  ⟨rfl,
    bounding_box_filter boxQuery sampleBox (fun _ => true) sampleImage rfl⟩

theorem length_insertSorted (le : Image → Image → Bool) (x : Image)
    (rows : List Image) :
    (insertSorted le x rows).length = rows.length + 1 := by
  induction rows with
  | nil => rfl
  | cons y ys ih =>
    simp only [insertSorted]
    split <;> simp [ih]

theorem length_sortByOrderings (ords : List Ordering) (rows : List Image) :
    (sortByOrderings ords rows).length = rows.length := by
  induction rows with
  | nil => rfl
  | cons y ys ih =>
    simp only [sortByOrderings, List.foldr_cons] at *
    rw [length_insertSorted, ih]
    rfl

/-- C5: pagination. For page number `p` and page size `limit` (both
positive), the engine returns exactly the rows obtained by skipping the
first `(p-1)*limit` matching rows after filtering and ordering and taking
at most `limit` of them; the page is marked last exactly when fewer than
`limit` rows are returned; and when the total match count is an exact
multiple `k*limit` of the page size, page `k+1` — the final page — is empty
and marked last. -/
theorem pagination_boundaries (table : List Image) (q : ImageQuery)
    (ords : List Ordering) (results_per_page page_num : Nat)
    (hlimit : 0 < results_per_page) (_hpage : 0 < page_num) :
    ((query_images table q ords results_per_page page_num).image_ids =
        (((sortByOrderings ords
              (table.filter (update_image_query q (fun _ => true)))).drop
            ((page_num - 1) * results_per_page)).take results_per_page).map
          (fun r => ObjectRef.mk r.bucket r.key)
      ∧ (query_images table q ords results_per_page page_num).image_ids.length
          ≤ results_per_page
      ∧ ((query_images table q ords results_per_page page_num).is_last_page =
            true ↔
          (query_images table q ords results_per_page
              page_num).image_ids.length < results_per_page)
      ∧ ∀ k : Nat,
          (table.filter (update_image_query q (fun _ => true))).length =
            k * results_per_page →
          page_num = k + 1 →
          ((query_images table q ords results_per_page page_num).image_ids =
              []
            ∧ (query_images table q ords results_per_page
                page_num).is_last_page = true)) := by
  refine ⟨rfl, ?_, ?_, ?_⟩
  · simp only [query_images, sql_store_query, List.length_map]
    exact le_trans (List.length_take_le _ _) (le_refl _)
  · simp [query_images]
  · intro k hcount hpnum
    have hdrop : (sortByOrderings ords
        (table.filter (update_image_query q (fun _ => true)))).drop
          ((page_num - 1) * results_per_page) = [] := by
      apply List.drop_eq_nil_of_le
      rw [length_sortByOrderings, hcount, hpnum]
      simp
    constructor
    · simp [query_images, sql_store_query, hdrop]
    · simp [query_images, sql_store_query, hdrop, hlimit]

/-- Witness for C5 at a concrete input: one matching row, page size 1, page
2 — the total count is an exact multiple of the page size and the final
page is empty and marked last. -/
theorem pagination_boundaries_witness :
    (0 : Nat) < 1 ∧ (0 : Nat) < 2
    ∧ (([sampleImage].filter
        (update_image_query emptyImageQuery (fun _ => true))).length = 1 * 1)
    ∧ ((query_images [sampleImage] emptyImageQuery [] 1 2).image_ids = []
      ∧ (query_images [sampleImage] emptyImageQuery [] 1 2).is_last_page =
          true) :=
  ⟨Nat.zero_lt_one, by decide, by decide,
    (pagination_boundaries [sampleImage] emptyImageQuery [] 1 2
        Nat.zero_lt_one (by decide)).2.2.2 1 (by decide) rfl⟩

end Mallard
